import Mathlib

/-!
Verification of the AutoCTF sandbox lifecycle and resilient command execution
layer against its specification.

The development shallowly embeds `src/sandbox_manager.py` (class
`SandboxManager`), `src/mcp/exec_client.py` and `src/agent/recon.py`.
Remote effects (`AsyncSandbox.create`, `sandbox.commands.run`) are modelled
by an environment (`Env`) that fixes the outcome of each successive remote
call; the manager's mutable fields are threaded explicitly through a `World`
record that also carries ghost instrumentation (the list of dispatched
command strings and call counters) used to state the claims.
-/

namespace AutoCTF

/-- Result object of one remote `sandbox.commands.run` call (the E2B
`CommandResult` fields the code reads: `stdout`, `stderr`, `exit_code`). -/
structure CmdRes where
  stdout : String
  stderr : String
  exitCode : Int
  deriving Repr, DecidableEq

/-- Outcome of one `sandbox.commands.run` dispatch as seen by the caller:
a result object, an `asyncio.TimeoutError`, or any other raised exception
(connection reset, rate limiting, quota, ...). -/
inductive DispatchOutcome where
  | ok (stdout stderr : String) (exitCode : Int)
  | timeoutErr
  | raiseErr (msg : String)
  deriving Repr, DecidableEq

/-- Python exception in flight, at the granularity the `except` clauses of
`SandboxManager.run_command` distinguish: `asyncio.TimeoutError` versus every
other `Exception` (carrying its message). -/
inductive PyExc where
  | timeoutExc
  | otherExc (msg : String)
  deriving Repr, DecidableEq

/-- Mutable state of a `SandboxManager` instance: the current sandbox handle
(identified by a number; `none` = no sandbox), `created_at`, `command_count`.
`nextId` is the identity the next created sandbox will receive, so distinct
creations yield distinct handle identities. -/
structure SbxState where
  sandbox : Option Nat
  createdAt : Option Nat
  commandCount : Nat
  nextId : Nat
  deriving Repr, DecidableEq

/-- `self.max_sandbox_age = 3600` (seconds). -/
def maxSandboxAge : Nat := 3600

/-- `self.max_commands = 100`. -/
def maxCommands : Nat := 100

/-- Environment fixing the outcome of every remote call: `createErr i` is the
outcome of the `i`-th `AsyncSandbox.create` call (`none` = success, `some m` =
raises an exception with message `m`), and `dispatch i` the outcome of the
`i`-th `commands.run` dispatch. -/
structure Env where
  createErr : Nat → Option String
  dispatch : Nat → DispatchOutcome

/-- World threaded through the model: manager state plus ghost
instrumentation — `k` counts consumed dispatches, `createCalls` counts
`AsyncSandbox.create` calls, `provisionCalls` counts calls to
`install_security_tools` that reach its body, and `trace` records every
dispatched command string in dispatch order. -/
structure World where
  st : SbxState
  k : Nat
  createCalls : Nat
  provisionCalls : Nat
  trace : List String
  deriving Repr, DecidableEq

/-- Model of `await sandbox.commands.run(cmd, timeout)`: consume the next
dispatch outcome from the environment and record the command in the trace. -/
def runCmdRaw (env : Env) (cmd : String) (w : World) : Except PyExc CmdRes × World :=
  let w' : World := { w with k := w.k + 1, trace := w.trace ++ [cmd] }
  match env.dispatch w.k with
  | .ok out err code => (.ok ⟨out, err, code⟩, w')
  | .timeoutErr => (.error .timeoutExc, w')
  | .raiseErr m => (.error (.otherExc m), w')

/-- Field resets performed by `SandboxManager.close_sandbox` (a no-op when no
sandbox exists; otherwise `sandbox = None`, `created_at = None`,
`command_count = 0`; the remote teardown is left to E2B). -/
def closeSt (st : SbxState) : SbxState :=
  match st.sandbox with
  | none => st
  | some _ => { st with sandbox := none, createdAt := none, commandCount := 0 }

/-- Model of `await self.close_sandbox()`. -/
def closeSandbox (w : World) : World :=
  { w with st := closeSt w.st }

/-- Model of `SandboxManager.create_sandbox`: on success the handle fields are
set (`created_at = time.time()`, `command_count = 0`) and a fresh identity is
assigned; on failure the wrapped `RuntimeError` propagates and the manager
fields are left as they were. -/
def createSandbox (env : Env) (now : Nat) (w : World) : Except PyExc Unit × World :=
  let w1 : World := { w with createCalls := w.createCalls + 1 }
  match env.createErr w.createCalls with
  | some m => (.error (.otherExc ("Failed to create E2B sandbox: " ++ m)), w1)
  | none =>
      (.ok (), { w1 with
        st := { sandbox := some w.st.nextId, createdAt := some now,
                commandCount := 0, nextId := w.st.nextId + 1 } })

/-- Tool list installed by `install_security_tools`. -/
def securityTools : List String :=
  ["nmap", "nikto", "gobuster", "sqlmap", "curl", "wget", "git", "whois",
   "dnsutils", "netcat-openbsd"]

/-- Package-index refresh command of `install_security_tools` (the Python
triple-quoted string, flattened to one line). -/
def updateCmd : String :=
  "export DEBIAN_FRONTEND=noninteractive && sudo apt-get update -qq 2>&1 | grep -E \"Reading|Fetched|E:|W:\" | tail -5"

/-- Tool installation command of `install_security_tools`. -/
def installCmd : String :=
  "export DEBIAN_FRONTEND=noninteractive && sudo apt-get install -y -qq " ++
    String.intercalate " " securityTools ++
    " 2>&1 | grep -E \"Setting up|Unpacking|Done|E:|W:\" | tail -10"

/-- Verification command of `install_security_tools` (the shell loop checking
each binary, flattened to one line). -/
def verifyCmd : String :=
  "echo \"Checking installed tools:\" && for tool in nmap nikto gobuster sqlmap curl wget git; do if command -v $tool >/dev/null 2>&1; then echo \"  ✓ $tool\"; else echo \"  ✗ $tool (missing)\"; fi; done"

/-- Model of `SandboxManager.install_security_tools`. With no sandbox it
raises a `RuntimeError`; otherwise it always dispatches the package-index
update, then (if that dispatch did not raise) the install command, then (if
that did not raise) the verification command, whose exit code and output only
drive log messages. Every exception inside the body is caught and downgraded
to a warning, so the call returns normally. -/
def installSecurityTools (env : Env) (w : World) : Except PyExc Unit × World :=
  match w.st.sandbox with
  | none => (.error (.otherExc "No sandbox available for tool installation"), w)
  | some _ =>
      let w0 : World := { w with provisionCalls := w.provisionCalls + 1 }
      match runCmdRaw env updateCmd w0 with
      | (.error _, w1) => (.ok (), w1)
      | (.ok _, w1) =>
          match runCmdRaw env installCmd w1 with
          | (.error _, w2) => (.ok (), w2)
          | (.ok _, w2) =>
              match runCmdRaw env verifyCmd w2 with
              | (_, w3) => (.ok (), w3)

/-- Recreation predicate of `get_or_create_sandbox`: no sandbox, or
`self.created_at and (time.time() - self.created_at > self.max_sandbox_age)`
(the truthiness test on `created_at` is the `0 < c` conjunct), or
`self.command_count >= self.max_commands`. -/
def shouldRecreate (now : Nat) (st : SbxState) : Bool :=
  match st.sandbox with
  | none => true
  | some _ =>
      (match st.createdAt with
       | none => false
       | some c => decide (0 < c) && decide (maxSandboxAge < now - c)) ||
      decide (maxCommands ≤ st.commandCount)

/-- Model of `SandboxManager.get_or_create_sandbox`: when recreation is
needed, close the old handle, create a new sandbox (failures propagate), then
provision it, and return `self.sandbox`. -/
def getOrCreateSandbox (env : Env) (now : Nat) (w : World) :
    Except PyExc (Option Nat) × World :=
  if shouldRecreate now w.st then
    let w1 := closeSandbox w
    match createSandbox env now w1 with
    | (.error e, w2) => (.error e, w2)
    | (.ok _, w2) =>
        match installSecurityTools env w2 with
        | (.error e, w3) => (.error e, w3)
        | (.ok _, w3) => (.ok w3.st.sandbox, w3)
  else (.ok w.st.sandbox, w)

/-- Dict returned by `SandboxManager.run_command`
(`stdout`, `stderr`, `exit_code`, `success`, `output`). -/
structure RunResult where
  stdout : String
  stderr : String
  exit_code : Int
  success : Bool
  output : String
  deriving Repr, DecidableEq

/-- Result dict built from a command result on the normal return path:
`success` is derived as `exit_code == 0` and `output` concatenates stdout and
stderr with a newline. -/
def resultDict (r : CmdRes) : RunResult :=
  { stdout := r.stdout, stderr := r.stderr, exit_code := r.exitCode,
    success := r.exitCode == 0,
    output := r.stdout ++ "\n" ++ r.stderr }

/-- Dict returned by the `except asyncio.TimeoutError` handler of
`run_command`. -/
def timeoutDict (cmd : String) (timeout : Nat) : RunResult :=
  { stdout := "",
    stderr := "Timeout: Command exceeded " ++ toString timeout ++ "s limit",
    exit_code := -1, success := false,
    output := "Command timed out after " ++ toString timeout ++ "s: " ++ cmd.take 80 }

/-- Dict returned by the generic `except Exception` handler of
`run_command`. -/
def failureDict (msg : String) : RunResult :=
  { stdout := "", stderr := "Command execution failed: " ++ msg,
    exit_code := -1, success := false,
    output := "Command execution failed: " ++ msg }

/-- Whitespace class of Python's `str.strip` and `str.split()`. -/
def isSpace (c : Char) : Bool :=
  c = ' ' || c = '\t' || c = '\n' || c = '\r' || c = '\x0b' || c = '\x0c'

/-- Whether `needle` starts the list `hay`. -/
def listStartsWith (needle : List Char) : List Char → Bool :=
  fun hay =>
    match needle, hay with
    | [], _ => true
    | _ :: _, [] => false
    | a :: as, b :: bs => a == b && listStartsWith as bs

/-- Whether `needle` occurs somewhere in `hay` (Python `needle in hay`). -/
def listContains (needle : List Char) : List Char → Bool
  | [] => needle.isEmpty
  | c :: t => listStartsWith needle (c :: t) || listContains needle t

/-- Python substring test `sub in s`. -/
def pyContains (s sub : String) : Bool :=
  listContains sub.data s.data

/-- Fuel-driven worker of `pySplit`: scan for the leftmost occurrences of the
non-empty separator, emitting the accumulated segment at each one. The fuel
starts at the input length, so it never runs out before the input does. -/
def pySplitFuel (sep : List Char) : Nat → List Char → List Char → List (List Char)
  | _, acc, [] => [acc.reverse]
  | 0, acc, rest => [acc.reverse ++ rest]
  | fuel + 1, acc, c :: t =>
      if sep ≠ [] ∧ listStartsWith sep (c :: t) = true then
        acc.reverse :: pySplitFuel sep fuel [] (List.drop (sep.length - 1) t)
      else pySplitFuel sep fuel (c :: acc) t

/-- Python `s.split(sep)` for a non-empty separator. -/
def pySplit (s sep : String) : List String :=
  if sep.data = [] then [s]
  else (pySplitFuel sep.data s.data.length [] s.data).map fun l => String.mk l

/-- Fuel-driven worker of `pyReplace`. -/
def pyReplaceFuel (old new : List Char) : Nat → List Char → List Char
  | _, [] => []
  | 0, rest => rest
  | fuel + 1, c :: t =>
      if old ≠ [] ∧ listStartsWith old (c :: t) = true then
        new ++ pyReplaceFuel old new fuel (List.drop (old.length - 1) t)
      else c :: pyReplaceFuel old new fuel t

/-- Python `s.replace(old, new)` for a non-empty pattern. -/
def pyReplace (s old new : String) : String :=
  String.mk (pyReplaceFuel old.data new.data s.data.length s.data)

/-- Python `s.strip()`. -/
def pyStrip (s : String) : String :=
  String.mk (((s.data.dropWhile isSpace).reverse.dropWhile isSpace).reverse)

/-- Python `s.startswith(pre)`. -/
def pyStartsWith (s pre : String) : Bool :=
  listStartsWith pre.data s.data

/-- Tool name extracted by `command.split()[0]`: the first
whitespace-separated token. -/
def firstWord (cmd : String) : String :=
  String.mk ((cmd.data.dropWhile isSpace).takeWhile fun c => isSpace c = false)

/-- Message of the `RuntimeError` raised when the post-reinstall retry still
exits 127. -/
def toolUnavailableMsg (tool : String) : String :=
  "Tool '" ++ tool ++ "' not available even after reinstall. E2B sandbox may not support this tool."

/-- Dispatch segment of the `try` block of `SandboxManager.run_command`
(everything after the counter increment): dispatch the command; on exit code
127 reinstall the tools and retry the same command exactly once, raising a
`RuntimeError` if the retry also exits 127; otherwise return the result dict.
Exceptions propagate to the handlers in `runCommand`. -/
def dispatchAndRepair (env : Env) (cmd : String) (w : World) :
    Except PyExc RunResult × World :=
  match runCmdRaw env cmd w with
  | (.error e, w3) => (.error e, w3)
  | (.ok r, w3) =>
      if r.exitCode == 127 then
        match installSecurityTools env w3 with
        | (.error e, w4) => (.error e, w4)
        | (.ok _, w4) =>
            match runCmdRaw env cmd w4 with
            | (.error e, w5) => (.error e, w5)
            | (.ok r2, w5) =>
                if r2.exitCode == 127 then
                  (.error (.otherExc (toolUnavailableMsg (firstWord cmd))), w5)
                else (.ok (resultDict r2), w5)
      else (.ok (resultDict r), w3)

/-- Body of the `try` block of `SandboxManager.run_command`: lease a sandbox,
increment `command_count` unconditionally, then run the dispatch-and-repair
segment. -/
def runCommandInner (env : Env) (now : Nat) (cmd : String) (w : World) :
    Except PyExc RunResult × World :=
  match getOrCreateSandbox env now w with
  | (.error e, w1) => (.error e, w1)
  | (.ok _, w1) =>
      dispatchAndRepair env cmd
        { w1 with st := { w1.st with commandCount := w1.st.commandCount + 1 } }

/-- Model of `SandboxManager.run_command`: the `try` body wrapped in its two
handlers — `asyncio.TimeoutError` yields the synthetic timeout dict, every
other exception yields the generic failure dict. The function is total: it
always returns a result dict. -/
def runCommand (env : Env) (now : Nat) (cmd : String) (timeout : Nat) (w : World) :
    RunResult × World :=
  match runCommandInner env now cmd w with
  | (.ok r, w') => (r, w')
  | (.error .timeoutExc, w') => (timeoutDict cmd timeout, w')
  | (.error (.otherExc m), w') => (failureDict m, w')

/-- Occurrence count of a command string in a trace. -/
def countOcc (x : String) : List String → Nat
  | [] => 0
  | y :: ys => (if y = x then 1 else 0) + countOcc x ys

theorem countOcc_append (x : String) (l1 l2 : List String) :
    countOcc x (l1 ++ l2) = countOcc x l1 + countOcc x l2 := by
  induction l1 with
  | nil => simp [countOcc]
  | cons y ys ih => simp [countOcc, ih]; omega

/-- The world returned by a raw dispatch: index advanced, command recorded,
manager state untouched. -/
theorem runCmdRaw_snd (env : Env) (cmd : String) (w : World) :
    (runCmdRaw env cmd w).2 = { w with k := w.k + 1, trace := w.trace ++ [cmd] } := by
  unfold runCmdRaw
  cases env.dispatch w.k <;> rfl

/-- Characterisation of `install_security_tools` on a live sandbox: it
returns normally (every internal exception is caught), leaves the manager's
handle fields untouched, counts one provisioning call, and appends to the
trace a non-empty run of provisioning commands beginning with the
package-index update — and containing the install command whenever the update
dispatch returned a result object. -/
theorem installSecurityTools_spec (env : Env) (w : World) (i : Nat)
    (h : w.st.sandbox = some i) :
    ∃ l, installSecurityTools env w =
        (.ok (), { st := w.st, k := w.k + l.length, createCalls := w.createCalls,
                   provisionCalls := w.provisionCalls + 1, trace := w.trace ++ l }) ∧
      (∀ c ∈ l, c = updateCmd ∨ c = installCmd ∨ c = verifyCmd) ∧
      l.head? = some updateCmd ∧
      (∀ out err code, env.dispatch w.k = .ok out err code → installCmd ∈ l) := by
  unfold installSecurityTools
  rw [h]
  simp only [runCmdRaw]
  rcases h1 : env.dispatch w.k with o1 | _ | m1
  · rcases h2 : env.dispatch (w.k + 1) with o2 | _ | m2
    · rcases h3 : env.dispatch (w.k + 1 + 1) with o3 | _ | m3 <;>
        exact ⟨[updateCmd, installCmd, verifyCmd], by simp [h1, h2, h3], by simp, by simp,
          fun _ _ _ _ => by simp⟩
    · exact ⟨[updateCmd, installCmd], by simp [h1, h2], by simp, by simp,
        fun _ _ _ _ => by simp⟩
    · exact ⟨[updateCmd, installCmd], by simp [h1, h2], by simp, by simp,
        fun _ _ _ _ => by simp⟩
  · exact ⟨[updateCmd], by simp [h1], by simp, by simp,
      fun _ _ _ hc => absurd hc (by simp)⟩
  · exact ⟨[updateCmd], by simp [h1], by simp, by simp,
      fun _ _ _ hc => absurd hc (by simp)⟩

/-- Tool installation never changes the manager's handle fields. -/
theorem installSecurityTools_st (env : Env) (w : World) :
    ((installSecurityTools env w).2).st = w.st := by
  rcases h : w.st.sandbox with _ | i
  · unfold installSecurityTools
    rw [h]
  · obtain ⟨l, hl, -⟩ := installSecurityTools_spec env w i h
    rw [hl]

/-- Test whether a dispatch outcome is a result object with exit code 127. -/
def is127 : DispatchOutcome → Bool
  | .ok _ _ code => code == 127
  | _ => false

/-- The dispatch-and-repair segment never changes the manager's handle
fields: neither raw dispatches nor tool reinstallation touch them. -/
theorem dispatchAndRepair_st (env : Env) (cmd : String) (w : World) :
    ((dispatchAndRepair env cmd w).2).st = w.st := by
  unfold dispatchAndRepair
  rcases hr : runCmdRaw env cmd w with ⟨r3, w3⟩
  have hw3 : w3.st = w.st := by
    have h := runCmdRaw_snd env cmd w
    rw [hr] at h
    rw [show w3 = (r3, w3).2 from rfl, h]
  rcases r3 with e | r
  · simpa using hw3
  · by_cases h127 : r.exitCode == 127
    · simp only [h127, if_true]
      rcases hI : installSecurityTools env w3 with ⟨rI, w4⟩
      have hw4 : w4.st = w3.st := by
        have h := installSecurityTools_st env w3
        rw [hI] at h
        exact h
      rcases rI with e | _
      · simpa using hw4.trans hw3
      · rcases hr2 : runCmdRaw env cmd w4 with ⟨r5, w5⟩
        have hw5 : w5.st = w4.st := by
          have h := runCmdRaw_snd env cmd w4
          rw [hr2] at h
          rw [show w5 = (r5, w5).2 from rfl, h]
        simp only []
        rw [hr2]
        rcases r5 with e | r2
        · simpa using (hw5.trans hw4).trans hw3
        · by_cases h127b : r2.exitCode == 127 <;>
            simp [h127b, hw5, hw4, hw3]
    · simp [h127, hw3]

theorem countOcc_eq_zero (x : String) (l : List String) (h : ∀ c ∈ l, c ≠ x) :
    countOcc x l = 0 := by
  induction l with
  | nil => rfl
  | cons y ys ih =>
      have hy : y ≠ x := h y (by simp)
      simp [countOcc, hy]
      exact ih fun c hc => h c (by simp [hc])

/-- With a live, non-expired, non-exhausted handle the recreation predicate
is false. -/
theorem shouldRecreate_eq_false (now : Nat) (st : SbxState) (i c : Nat)
    (hs : st.sandbox = some i) (hc : st.createdAt = some c)
    (hage : now - c ≤ maxSandboxAge) (hcnt : st.commandCount < maxCommands) :
    shouldRecreate now st = false := by
  simp only [shouldRecreate, hs, hc, Bool.or_eq_false_iff, Bool.and_eq_false_iff,
    decide_eq_false_iff_not, not_lt, not_le]
  constructor
  · right
    omega
  · omega

/-- Leasing against a handle that needs no recreation returns it unchanged. -/
theorem getOrCreateSandbox_live (env : Env) (now : Nat) (w : World)
    (h : shouldRecreate now w.st = false) :
    getOrCreateSandbox env now w = (.ok w.st.sandbox, w) := by
  unfold getOrCreateSandbox
  rw [h]
  simp

/-- Trace and provisioning accounting of the dispatch-and-repair segment with
a live sandbox: the command itself is dispatched exactly once — exactly twice
when the first dispatch came back with exit code 127 — and the tool
reinstallation runs exactly when that repair path is taken. No third dispatch
of the command ever happens, whatever the environment does. -/
theorem dispatchAndRepair_count (env : Env) (cmd : String) (w : World) (i : Nat)
    (hs : w.st.sandbox = some i)
    (h1 : cmd ≠ updateCmd) (h2 : cmd ≠ installCmd) (h3 : cmd ≠ verifyCmd) :
    countOcc cmd ((dispatchAndRepair env cmd w).2).trace =
      countOcc cmd w.trace + (if is127 (env.dispatch w.k) then 2 else 1) ∧
    ((dispatchAndRepair env cmd w).2).provisionCalls =
      w.provisionCalls + (if is127 (env.dispatch w.k) then 1 else 0) := by
  unfold dispatchAndRepair
  simp only [runCmdRaw]
  rcases hd : env.dispatch w.k with ⟨o, e, code⟩ | _ | ⟨m⟩
  · simp only [hd]
    by_cases h127 : code = 127
    · subst h127
      have hs' : (({ w with k := w.k + 1, trace := w.trace ++ [cmd] } : World)).st.sandbox = some i := hs
      obtain ⟨l, hI, hmem, -, -⟩ :=
        installSecurityTools_spec env { w with k := w.k + 1, trace := w.trace ++ [cmd] } i hs'
      rw [hI]
      have hl0 : countOcc cmd l = 0 :=
        countOcc_eq_zero cmd l fun c hc => by
          rcases hmem c hc with h | h | h <;> rw [h] <;>
            [exact fun hx => h1 hx.symm; exact fun hx => h2 hx.symm; exact fun hx => h3 hx.symm]
      rcases hd2 : env.dispatch (w.k + 1 + l.length) with ⟨o2, e2, code2⟩ | _ | ⟨m2⟩ <;>
        simp only [hd2] <;>
        simp [apply_ite, ite_self, is127, hd, countOcc_append, countOcc, hl0, h1, h2, h3]
    · simp [h127, is127, hd, countOcc_append, countOcc]
  · simp [hd, is127, countOcc_append, countOcc]
  · simp [hd, is127, countOcc_append, countOcc]

/-- The world coming out of `run_command` is the world of its `try` body:
each `except` handler only swaps the returned dict. -/
theorem runCommand_snd (env : Env) (now : Nat) (cmd : String) (t : Nat) (w : World) :
    (runCommand env now cmd t w).2 = (runCommandInner env now cmd w).2 := by
  unfold runCommand
  rcases h : runCommandInner env now cmd w with ⟨r, w'⟩
  rcases r with e | r
  · rcases e with _ | m <;> rfl
  · rfl

/-- Every exit of the `try` body is either a raised exception or a result
dict built by `resultDict`. -/
theorem dispatchAndRepair_classify (env : Env) (cmd : String) (w : World) :
    (∃ e w', dispatchAndRepair env cmd w = (.error e, w')) ∨
    (∃ cr w', dispatchAndRepair env cmd w = (.ok (resultDict cr), w')) := by
  unfold dispatchAndRepair
  rcases hr : runCmdRaw env cmd w with ⟨r3, w3⟩
  rcases r3 with e | r
  · exact .inl ⟨e, w3, rfl⟩
  · by_cases h127 : r.exitCode == 127
    · simp only [h127, if_true]
      rcases hI : installSecurityTools env w3 with ⟨rI, w4⟩
      rcases rI with e | u
      · exact .inl ⟨e, w4, rfl⟩
      · simp only []
        rcases hr2 : runCmdRaw env cmd w4 with ⟨r5, w5⟩
        rcases r5 with e | r2
        · exact .inl ⟨e, w5, rfl⟩
        · by_cases h127b : r2.exitCode == 127
          · exact .inl ⟨.otherExc (toolUnavailableMsg (firstWord cmd)), w5,
              by simp [h127b]⟩
          · exact .inr ⟨r2, w5, by simp [h127b]⟩
    · exact .inr ⟨r, w3, by simp [h127]⟩

theorem runCommandInner_classify (env : Env) (now : Nat) (cmd : String) (w : World) :
    (∃ e w', runCommandInner env now cmd w = (.error e, w')) ∨
    (∃ cr w', runCommandInner env now cmd w = (.ok (resultDict cr), w')) := by
  unfold runCommandInner
  rcases hl : getOrCreateSandbox env now w with ⟨rl, w1⟩
  rcases rl with e | hdl
  · exact .inl ⟨e, w1, rfl⟩
  · exact dispatchAndRepair_classify env cmd
      { w1 with st := { w1.st with commandCount := w1.st.commandCount + 1 } }

/-- C4: `run_command` increments the leased handle's `command_count` exactly
once per dispatched command, whatever the outcome is — success, application
failure (non-zero exit), timeout, infrastructure exception, and also the
tool-missing repair path that physically dispatches the same command a second
time. The count after the call is the count of the handle returned by
`get_or_create_sandbox` plus one. -/
theorem c4_command_count_increments_once (env : Env) (now : Nat) (cmd : String)
    (t : Nat) (w w1 : World) (hdl : Option Nat)
    (hl : getOrCreateSandbox env now w = (.ok hdl, w1)) :
    ((runCommand env now cmd t w).2).st.commandCount = w1.st.commandCount + 1 := by
  have hbody : runCommandInner env now cmd w =
      dispatchAndRepair env cmd
        { w1 with st := { w1.st with commandCount := w1.st.commandCount + 1 } } := by
    unfold runCommandInner
    rw [hl]
  have hst := dispatchAndRepair_st env cmd
    { w1 with st := { w1.st with commandCount := w1.st.commandCount + 1 } }
  rw [runCommand_snd, hbody, hst]

/-- Closed witness for `c4_command_count_increments_once`: a live handle with
`command_count = 0` and an infrastructure failure on dispatch still ends the
call with `command_count = 1`. -/
theorem c4_command_count_increments_once_witness :
    ((runCommand
        { createErr := fun _ => none, dispatch := fun _ => .raiseErr "connection reset by peer" }
        1 "curl -I http://example.com" 120
        { st := { sandbox := some 0, createdAt := some 1, commandCount := 0, nextId := 1 },
          k := 0, createCalls := 1, provisionCalls := 1, trace := [] }).2).st.commandCount = 0 + 1 :=
  c4_command_count_increments_once
    { createErr := fun _ => none, dispatch := fun _ => .raiseErr "connection reset by peer" }
    1 "curl -I http://example.com" 120
    { st := { sandbox := some 0, createdAt := some 1, commandCount := 0, nextId := 1 },
      k := 0, createCalls := 1, provisionCalls := 1, trace := [] }
    { st := { sandbox := some 0, createdAt := some 1, commandCount := 0, nextId := 1 },
      k := 0, createCalls := 1, provisionCalls := 1, trace := [] }
    (some 0) (by rfl)

/-- C6: a dispatch that exceeds its timeout (`asyncio.TimeoutError`) makes
`run_command` return the synthetic result dict — `exit_code = -1`,
`success = false`, a descriptive message — and never lets the exception
escape: the first conjunct covers a timeout raised anywhere in the `try`
body, the second the dispatch of the command itself against a live handle. -/
theorem c6_timeout_returns_synthetic_result :
    (∀ env now cmd t (w w' : World),
      runCommandInner env now cmd w = (.error .timeoutExc, w') →
      runCommand env now cmd t w = (timeoutDict cmd t, w')) ∧
    (∀ env now cmd t (w : World), shouldRecreate now w.st = false →
      env.dispatch w.k = .timeoutErr →
      (runCommand env now cmd t w).1 = timeoutDict cmd t) ∧
    (∀ cmd t, (timeoutDict cmd t).exit_code = -1 ∧ (timeoutDict cmd t).success = false) := by
  refine ⟨?_, ?_, fun cmd t => ⟨rfl, rfl⟩⟩
  · intro env now cmd t w w' h
    unfold runCommand
    rw [h]
  · intro env now cmd t w hfresh hTo
    have hbody : runCommandInner env now cmd w =
        dispatchAndRepair env cmd
          { w with st := { w.st with commandCount := w.st.commandCount + 1 } } := by
      unfold runCommandInner
      rw [getOrCreateSandbox_live env now w hfresh]
    unfold runCommand
    rw [hbody]
    unfold dispatchAndRepair
    simp only [runCmdRaw]
    simp [hTo]

/-- Closed witness for `c6_timeout_returns_synthetic_result`: a concrete
timed-out `nmap` scan against a live handle yields the synthetic dict. -/
theorem c6_timeout_returns_synthetic_result_witness :
    (runCommand { createErr := fun _ => none, dispatch := fun _ => .timeoutErr }
      1 "nmap -Pn 10.0.0.1" 90
      { st := { sandbox := some 0, createdAt := some 1, commandCount := 3, nextId := 1 },
        k := 0, createCalls := 1, provisionCalls := 1, trace := [] }).1 =
      timeoutDict "nmap -Pn 10.0.0.1" 90 :=
  c6_timeout_returns_synthetic_result.2.1
    { createErr := fun _ => none, dispatch := fun _ => .timeoutErr }
    1 "nmap -Pn 10.0.0.1" 90
    { st := { sandbox := some 0, createdAt := some 1, commandCount := 3, nextId := 1 },
      k := 0, createCalls := 1, provisionCalls := 1, trace := [] }
    (by rfl) (by rfl)

/-- C5: first conjunct — as long as the current handle's age is at most
`max_sandbox_age` and its `command_count` is below `max_commands`, `lease()`
returns exactly the same handle and changes nothing, so any sequence of such
calls yields identical handle identities. Second conjunct — once
`command_count` has reached `max_commands`, the next `lease()` call recreates:
it returns the fresh identity `nextId` (distinct from the old handle) with
`command_count = 0`. -/
theorem c5_lease_identity_and_rotation :
    (∀ env now (w : World) i c, w.st.sandbox = some i → w.st.createdAt = some c →
      now - c ≤ maxSandboxAge → w.st.commandCount < maxCommands →
      getOrCreateSandbox env now w = (.ok (some i), w)) ∧
    (∀ env now (w : World) i, w.st.sandbox = some i →
      w.st.commandCount = maxCommands → env.createErr w.createCalls = none →
      i < w.st.nextId →
      ∃ w', getOrCreateSandbox env now w = (.ok (some w.st.nextId), w') ∧
        w'.st.sandbox = some w.st.nextId ∧ w'.st.commandCount = 0 ∧
        w.st.nextId ≠ i) := by
  constructor
  · intro env now w i c hs hc hage hcnt
    rw [getOrCreateSandbox_live env now w (shouldRecreate_eq_false now w.st i c hs hc hage hcnt), hs]
  · intro env now w i hs hcnt hcr hlt
    have hsr : shouldRecreate now w.st = true := by
      simp [shouldRecreate, hs, hcnt]
    unfold getOrCreateSandbox
    rw [hsr]
    simp only [if_true]
    have hclose : closeSandbox w =
        { w with st := { sandbox := none, createdAt := none, commandCount := 0,
                         nextId := w.st.nextId } } := by
      unfold closeSandbox closeSt
      rw [hs]
    rw [hclose]
    unfold createSandbox
    simp only []
    rw [hcr]
    simp only []
    obtain ⟨l, hI, -, -, -⟩ :=
      installSecurityTools_spec env
        { st := { sandbox := some w.st.nextId, createdAt := some now,
                  commandCount := 0, nextId := w.st.nextId + 1 },
          k := w.k, createCalls := w.createCalls + 1,
          provisionCalls := w.provisionCalls, trace := w.trace }
        w.st.nextId rfl
    rw [hI]
    exact ⟨_, rfl, rfl, rfl, by omega⟩

/-- Closed witness for `c5_lease_identity_and_rotation`: a handle aged 100
seconds with 5 commands is reused identically; a handle with 100 commands is
rotated to a fresh identity with a zero counter. -/
theorem c5_lease_identity_and_rotation_witness :
    getOrCreateSandbox { createErr := fun _ => none, dispatch := fun _ => .timeoutErr }
        101
        { st := { sandbox := some 4, createdAt := some 1, commandCount := 5, nextId := 5 },
          k := 0, createCalls := 5, provisionCalls := 5, trace := [] } =
      (.ok (some 4),
        { st := { sandbox := some 4, createdAt := some 1, commandCount := 5, nextId := 5 },
          k := 0, createCalls := 5, provisionCalls := 5, trace := [] }) ∧
    ∃ w', getOrCreateSandbox
        { createErr := fun _ => none, dispatch := fun _ => .ok "" "" 0 } 101
        { st := { sandbox := some 4, createdAt := some 1, commandCount := 100, nextId := 5 },
          k := 0, createCalls := 5, provisionCalls := 5, trace := [] } =
        (.ok (some 5), w') ∧ w'.st.sandbox = some 5 ∧ w'.st.commandCount = 0 ∧
        (5 : Nat) ≠ 4 :=
  ⟨c5_lease_identity_and_rotation.1
      { createErr := fun _ => none, dispatch := fun _ => .timeoutErr } 101
      { st := { sandbox := some 4, createdAt := some 1, commandCount := 5, nextId := 5 },
        k := 0, createCalls := 5, provisionCalls := 5, trace := [] }
      4 1 (by rfl) (by rfl) (by decide) (by decide),
    c5_lease_identity_and_rotation.2
      { createErr := fun _ => none, dispatch := fun _ => .ok "" "" 0 } 101
      { st := { sandbox := some 4, createdAt := some 1, commandCount := 100, nextId := 5 },
        k := 0, createCalls := 5, provisionCalls := 5, trace := [] }
      4 (by rfl) (by rfl) (by rfl) (by decide)⟩

/-- C2 counterexample: against a live handle, a dispatch that raises an
infrastructure exception ("connection reset by peer") is dispatched exactly
once — not the three attempts with exponential backoff the claim describes —
and the exception is converted to a failure dict immediately. -/
theorem c2_counterexample_no_retry :
    countOcc "curl -I http://example.com"
        ((runCommand
            { createErr := fun _ => none,
              dispatch := fun _ => .raiseErr "connection reset by peer" }
            1 "curl -I http://example.com" 120
            { st := { sandbox := some 0, createdAt := some 1, commandCount := 0, nextId := 1 },
              k := 0, createCalls := 1, provisionCalls := 1, trace := [] }).2).trace = 1 ∧
    (1 : Nat) ≠ 3 ∧
    (runCommand
        { createErr := fun _ => none,
          dispatch := fun _ => .raiseErr "connection reset by peer" }
        1 "curl -I http://example.com" 120
        { st := { sandbox := some 0, createdAt := some 1, commandCount := 0, nextId := 1 },
          k := 0, createCalls := 1, provisionCalls := 1, trace := [] }).1 =
      failureDict "connection reset by peer" := by
  refine ⟨by rfl, by decide, by rfl⟩

/-- C2 as amended: there is no retry and no backoff anywhere in the executor.
A transport/infrastructure exception raised by the dispatch of a command
against a live handle is caught after that single attempt and converted to a
failure dict (`exit_code = -1`, `success = false`); an exception during
sandbox creation inside `lease()` is wrapped in a `RuntimeError` and
propagates (fatal for the lease). -/
theorem c2_amended_single_attempt_failure_dict :
    (∀ env now cmd t (w : World) msg, shouldRecreate now w.st = false →
      env.dispatch w.k = .raiseErr msg →
      (runCommand env now cmd t w).1 = failureDict msg ∧
      countOcc cmd ((runCommand env now cmd t w).2).trace = countOcc cmd w.trace + 1) ∧
    (∀ env now (w : World) m, shouldRecreate now w.st = true →
      env.createErr w.createCalls = some m →
      ∃ w', getOrCreateSandbox env now w =
        (.error (.otherExc ("Failed to create E2B sandbox: " ++ m)), w')) := by
  constructor
  · intro env now cmd t w msg hfresh hRaise
    have hbody : runCommandInner env now cmd w =
        dispatchAndRepair env cmd
          { w with st := { w.st with commandCount := w.st.commandCount + 1 } } := by
      unfold runCommandInner
      rw [getOrCreateSandbox_live env now w hfresh]
    constructor
    · unfold runCommand
      rw [hbody]
      unfold dispatchAndRepair
      simp only [runCmdRaw]
      simp [hRaise]
    · rw [runCommand_snd, hbody]
      unfold dispatchAndRepair
      simp only [runCmdRaw]
      simp [hRaise, countOcc_append, countOcc]
  · intro env now w m hsr hcr
    unfold getOrCreateSandbox
    rw [hsr]
    simp only [if_true]
    unfold createSandbox
    simp only []
    have : (closeSandbox w).createCalls = w.createCalls := rfl
    rw [this, hcr]
    exact ⟨_, rfl⟩

/-- Closed witness for `c2_amended_single_attempt_failure_dict`: a concrete
rate-limit exception on dispatch yields the failure dict after one attempt,
and a concrete quota failure during creation makes `lease()` raise. -/
theorem c2_amended_single_attempt_failure_dict_witness :
    ((runCommand
        { createErr := fun _ => none, dispatch := fun _ => .raiseErr "rate limit exceeded" }
        1 "sqlmap -u http://example.com" 120
        { st := { sandbox := some 0, createdAt := some 1, commandCount := 0, nextId := 1 },
          k := 0, createCalls := 1, provisionCalls := 1, trace := [] }).1 =
      failureDict "rate limit exceeded" ∧
    countOcc "sqlmap -u http://example.com"
        ((runCommand
            { createErr := fun _ => none, dispatch := fun _ => .raiseErr "rate limit exceeded" }
            1 "sqlmap -u http://example.com" 120
            { st := { sandbox := some 0, createdAt := some 1, commandCount := 0, nextId := 1 },
              k := 0, createCalls := 1, provisionCalls := 1, trace := [] }).2).trace =
      countOcc "sqlmap -u http://example.com" [] + 1) ∧
    ∃ w', getOrCreateSandbox
        { createErr := fun _ => some "quota exceeded", dispatch := fun _ => .timeoutErr }
        1
        { st := { sandbox := none, createdAt := none, commandCount := 0, nextId := 0 },
          k := 0, createCalls := 0, provisionCalls := 0, trace := [] } =
      (.error (.otherExc ("Failed to create E2B sandbox: " ++ "quota exceeded")), w') :=
  ⟨c2_amended_single_attempt_failure_dict.1
      { createErr := fun _ => none, dispatch := fun _ => .raiseErr "rate limit exceeded" }
      1 "sqlmap -u http://example.com" 120
      { st := { sandbox := some 0, createdAt := some 1, commandCount := 0, nextId := 1 },
        k := 0, createCalls := 1, provisionCalls := 1, trace := [] }
      "rate limit exceeded" (by rfl) (by rfl),
    c2_amended_single_attempt_failure_dict.2
      { createErr := fun _ => some "quota exceeded", dispatch := fun _ => .timeoutErr }
      1
      { st := { sandbox := none, createdAt := none, commandCount := 0, nextId := 0 },
        k := 0, createCalls := 0, provisionCalls := 0, trace := [] }
      "quota exceeded" (by rfl) (by rfl)⟩

/-- C3: a command whose first dispatch exits 127 triggers exactly one
provisioning call and exactly one retry of the same command, and when the
retry also exits 127 (here: every dispatch answers exit code 127, which also
carries the tool reinstallation through) the final outcome is the
tool-unavailable failure dict: the internal `RuntimeError` is caught by the
generic handler, so the failure is fatal for this command only, and the
command is dispatched exactly twice — never a third time. -/
theorem c3_tool_missing_one_repair_cycle (env : Env) (now : Nat) (cmd : String)
    (t : Nat) (w : World) (i : Nat) (out err : Nat → String)
    (hs : w.st.sandbox = some i) (hfresh : shouldRecreate now w.st = false)
    (h127 : ∀ j, env.dispatch j = .ok (out j) (err j) 127)
    (h1 : cmd ≠ updateCmd) (h2 : cmd ≠ installCmd) (h3 : cmd ≠ verifyCmd) :
    (runCommand env now cmd t w).1 = failureDict (toolUnavailableMsg (firstWord cmd)) ∧
    countOcc cmd ((runCommand env now cmd t w).2).trace = countOcc cmd w.trace + 2 ∧
    ((runCommand env now cmd t w).2).provisionCalls = w.provisionCalls + 1 := by
  have hbody : runCommandInner env now cmd w =
      dispatchAndRepair env cmd
        { w with st := { w.st with commandCount := w.st.commandCount + 1 } } := by
    unfold runCommandInner
    rw [getOrCreateSandbox_live env now w hfresh]
  have hcount := dispatchAndRepair_count env cmd
    { w with st := { w.st with commandCount := w.st.commandCount + 1 } } i hs h1 h2 h3
  rw [h127] at hcount
  simp only [is127, if_true] at hcount
  refine ⟨?_, ?_, ?_⟩
  · unfold runCommand
    rw [hbody]
    unfold dispatchAndRepair
    simp only [runCmdRaw]
    obtain ⟨l, hI, -, -, -⟩ :=
      installSecurityTools_spec env
        { w with st := { w.st with commandCount := w.st.commandCount + 1 },
                 k := w.k + 1, trace := w.trace ++ [cmd] } i hs
    simp only [h127]
    rw [hI]
    simp [h127]
  · rw [runCommand_snd, hbody]
    exact hcount.1
  · rw [runCommand_snd, hbody]
    exact hcount.2

/-- Closed witness for `c3_tool_missing_one_repair_cycle`: a concrete `nikto`
scan whose every dispatch answers "command not found". -/
theorem c3_tool_missing_one_repair_cycle_witness :
    (runCommand
        { createErr := fun _ => none, dispatch := fun _ => .ok "" "sh: 1: nikto: not found" 127 }
        1 "nikto -h http://example.com" 120
        { st := { sandbox := some 0, createdAt := some 1, commandCount := 0, nextId := 1 },
          k := 0, createCalls := 1, provisionCalls := 1, trace := [] }).1 =
      failureDict (toolUnavailableMsg (firstWord "nikto -h http://example.com")) ∧
    countOcc "nikto -h http://example.com"
        ((runCommand
            { createErr := fun _ => none,
              dispatch := fun _ => .ok "" "sh: 1: nikto: not found" 127 }
            1 "nikto -h http://example.com" 120
            { st := { sandbox := some 0, createdAt := some 1, commandCount := 0, nextId := 1 },
              k := 0, createCalls := 1, provisionCalls := 1, trace := [] }).2).trace =
      countOcc "nikto -h http://example.com" [] + 2 ∧
    ((runCommand
        { createErr := fun _ => none, dispatch := fun _ => .ok "" "sh: 1: nikto: not found" 127 }
        1 "nikto -h http://example.com" 120
        { st := { sandbox := some 0, createdAt := some 1, commandCount := 0, nextId := 1 },
          k := 0, createCalls := 1, provisionCalls := 1, trace := [] }).2).provisionCalls =
      1 + 1 :=
  c3_tool_missing_one_repair_cycle
    { createErr := fun _ => none, dispatch := fun _ => .ok "" "sh: 1: nikto: not found" 127 }
    1 "nikto -h http://example.com" 120
    { st := { sandbox := some 0, createdAt := some 1, commandCount := 0, nextId := 1 },
      k := 0, createCalls := 1, provisionCalls := 1, trace := [] }
    0 (fun _ => "") (fun _ => "sh: 1: nikto: not found")
    (by rfl) (by rfl) (fun j => rfl) (by decide) (by decide) (by decide)

/-- C10: `run_command` is total at its interface. Every raised exception of
the `try` body — including the internal `RuntimeError` raised when the
post-reinstall retry still exits 127 — is converted by the handlers into a
result dict with `exit_code = -1` and `success = false`, and every normal
exit returns the dict built by `resultDict`; in all cases the caller receives
a `RunResult` carrying the five fields, never an exception. -/
theorem c10_run_command_never_raises :
    (∀ env now cmd t (w w' : World) m,
      runCommandInner env now cmd w = (.error (.otherExc m), w') →
      runCommand env now cmd t w = (failureDict m, w')) ∧
    (∀ env now cmd t (w w' : World),
      runCommandInner env now cmd w = (.error .timeoutExc, w') →
      runCommand env now cmd t w = (timeoutDict cmd t, w')) ∧
    (∀ env now cmd t (w : World),
      ((runCommand env now cmd t w).1.exit_code = -1 ∧
       (runCommand env now cmd t w).1.success = false) ∨
      ((runCommand env now cmd t w).1.success =
         ((runCommand env now cmd t w).1.exit_code == 0) ∧
       (runCommand env now cmd t w).1.output =
         (runCommand env now cmd t w).1.stdout ++ "\n" ++
           (runCommand env now cmd t w).1.stderr)) := by
  refine ⟨?_, ?_, ?_⟩
  · intro env now cmd t w w' m h
    unfold runCommand
    rw [h]
  · intro env now cmd t w w' h
    unfold runCommand
    rw [h]
  · intro env now cmd t w
    rcases runCommandInner_classify env now cmd w with ⟨e, w', h⟩ | ⟨cr, w', h⟩
    · unfold runCommand
      rw [h]
      rcases e with _ | m
      · exact .inl ⟨rfl, rfl⟩
      · exact .inl ⟨rfl, rfl⟩
    · unfold runCommand
      rw [h]
      exact .inr ⟨rfl, rfl⟩

/-- Closed witness for `c10_run_command_never_raises`: the double-127 path of
the `c3` scenario ends in the converted failure dict, exceptionlessly. -/
theorem c10_run_command_never_raises_witness :
    runCommand
        { createErr := fun _ => none, dispatch := fun _ => .ok "" "sh: 1: nikto: not found" 127 }
        1 "nikto -h http://example.com" 120
        { st := { sandbox := some 0, createdAt := some 1, commandCount := 0, nextId := 1 },
          k := 0, createCalls := 1, provisionCalls := 1, trace := [] } =
      (failureDict (toolUnavailableMsg (firstWord "nikto -h http://example.com")),
        { st := { sandbox := some 0, createdAt := some 1, commandCount := 1, nextId := 1 },
          k := 5, createCalls := 1, provisionCalls := 2,
          trace := ["nikto -h http://example.com", updateCmd, installCmd, verifyCmd,
                    "nikto -h http://example.com"] }) :=
  c10_run_command_never_raises.1
    { createErr := fun _ => none, dispatch := fun _ => .ok "" "sh: 1: nikto: not found" 127 }
    1 "nikto -h http://example.com" 120
    { st := { sandbox := some 0, createdAt := some 1, commandCount := 0, nextId := 1 },
      k := 0, createCalls := 1, provisionCalls := 1, trace := [] }
    { st := { sandbox := some 0, createdAt := some 1, commandCount := 1, nextId := 1 },
      k := 5, createCalls := 1, provisionCalls := 2,
      trace := ["nikto -h http://example.com", updateCmd, installCmd, verifyCmd,
                "nikto -h http://example.com"] }
    (toolUnavailableMsg (firstWord "nikto -h http://example.com"))
    (by rfl)

set_option maxRecDepth 8192 in
/-- C9 counterexample: provisioning is not short-circuited. Even when every
dispatch reports success and the verification pass shows every tool present
("✓"), a second call to `install_security_tools` on the same manager
dispatches the package-index update and the `apt-get install` again: after
two calls each appears twice in the trace, not once. -/
theorem c9_counterexample_no_short_circuit :
    countOcc installCmd
        ((installSecurityTools
            { createErr := fun _ => none,
              dispatch := fun _ =>
                .ok "Checking installed tools: ✓ nmap ✓ nikto ✓ gobuster ✓ sqlmap ✓ curl ✓ wget ✓ git" "" 0 }
            ((installSecurityTools
                { createErr := fun _ => none,
                  dispatch := fun _ =>
                    .ok "Checking installed tools: ✓ nmap ✓ nikto ✓ gobuster ✓ sqlmap ✓ curl ✓ wget ✓ git" "" 0 }
                { st := { sandbox := some 0, createdAt := some 1, commandCount := 0, nextId := 1 },
                  k := 0, createCalls := 1, provisionCalls := 1, trace := [] }).2)).2).trace = 2 ∧
    countOcc updateCmd
        ((installSecurityTools
            { createErr := fun _ => none,
              dispatch := fun _ =>
                .ok "Checking installed tools: ✓ nmap ✓ nikto ✓ gobuster ✓ sqlmap ✓ curl ✓ wget ✓ git" "" 0 }
            ((installSecurityTools
                { createErr := fun _ => none,
                  dispatch := fun _ =>
                    .ok "Checking installed tools: ✓ nmap ✓ nikto ✓ gobuster ✓ sqlmap ✓ curl ✓ wget ✓ git" "" 0 }
                { st := { sandbox := some 0, createdAt := some 1, commandCount := 0, nextId := 1 },
                  k := 0, createCalls := 1, provisionCalls := 1, trace := [] }).2)).2).trace = 2 ∧
    (2 : Nat) ≠ 1 := by
  refine ⟨by rfl, by rfl, by decide⟩

/-- C9 as amended: `install_security_tools` is safe to repeat — with a live
sandbox it always returns normally (every internal exception is caught) and
leaves the handle fields unchanged — but it is not short-circuited: every
call unconditionally re-dispatches the package-index update first and, when
that dispatch returns a result object, the `apt-get install` as well,
regardless of which tools are already present; the verification pass runs
after installation and only reports. -/
theorem c9_amended_provision_always_reinstalls (env : Env) (w : World) (i : Nat)
    (hs : w.st.sandbox = some i) :
    (installSecurityTools env w).1 = .ok () ∧
    ((installSecurityTools env w).2).st = w.st ∧
    ((installSecurityTools env w).2).provisionCalls = w.provisionCalls + 1 ∧
    ∃ l, ((installSecurityTools env w).2).trace = w.trace ++ l ∧
      l.head? = some updateCmd ∧
      (∀ out err code, env.dispatch w.k = .ok out err code → installCmd ∈ l) := by
  obtain ⟨l, hI, hmem, hhead, hinst⟩ := installSecurityTools_spec env w i hs
  rw [hI]
  exact ⟨rfl, rfl, rfl, l, rfl, hhead, hinst⟩

/-- Closed witness for `c9_amended_provision_always_reinstalls` at a concrete
all-tools-present sandbox. -/
theorem c9_amended_provision_always_reinstalls_witness :
    (installSecurityTools
        { createErr := fun _ => none, dispatch := fun _ => .ok "✓ nmap" "" 0 }
        { st := { sandbox := some 0, createdAt := some 1, commandCount := 0, nextId := 1 },
          k := 0, createCalls := 1, provisionCalls := 1, trace := [] }).1 = .ok () ∧
    ((installSecurityTools
        { createErr := fun _ => none, dispatch := fun _ => .ok "✓ nmap" "" 0 }
        { st := { sandbox := some 0, createdAt := some 1, commandCount := 0, nextId := 1 },
          k := 0, createCalls := 1, provisionCalls := 1, trace := [] }).2).st =
      { sandbox := some 0, createdAt := some 1, commandCount := 0, nextId := 1 } ∧
    ((installSecurityTools
        { createErr := fun _ => none, dispatch := fun _ => .ok "✓ nmap" "" 0 }
        { st := { sandbox := some 0, createdAt := some 1, commandCount := 0, nextId := 1 },
          k := 0, createCalls := 1, provisionCalls := 1, trace := [] }).2).provisionCalls = 1 + 1 ∧
    ∃ l, ((installSecurityTools
        { createErr := fun _ => none, dispatch := fun _ => .ok "✓ nmap" "" 0 }
        { st := { sandbox := some 0, createdAt := some 1, commandCount := 0, nextId := 1 },
          k := 0, createCalls := 1, provisionCalls := 1, trace := [] }).2).trace = [] ++ l ∧
      l.head? = some updateCmd ∧
      (∀ out err code,
        ({ createErr := fun _ => none, dispatch := fun _ => .ok "✓ nmap" "" 0 } : Env).dispatch 0 =
          .ok out err code → installCmd ∈ l) :=
  c9_amended_provision_always_reinstalls
    { createErr := fun _ => none, dispatch := fun _ => .ok "✓ nmap" "" 0 }
    { st := { sandbox := some 0, createdAt := some 1, commandCount := 0, nextId := 1 },
      k := 0, createCalls := 1, provisionCalls := 1, trace := [] }
    0 (by rfl)

/-- Reachability probe command of `run_recon`
(`curl -s -o /dev/null -w "%\x7bhttp_code\x7d" --max-time 10 {url}`). -/
def probeCmd (targetUrl : String) : String :=
  "curl -s -o /dev/null -w \"%\x7bhttp_code\x7d\" --max-time 10 " ++ targetUrl

/-- Unresponsive-target test of `run_recon`:
`"000" in http_code or not http_code.strip()`. -/
def unresponsive (httpCode : String) : Bool :=
  pyContains httpCode "000" || decide (pyStrip httpCode = "")

/-- Outcome environment for the `exec_command` calls made by the recon
orchestrator: the i-th call either returns the command's output or raises an
exception carrying a message. -/
abbrev ReconEnv := Nat → Except String String

/-- Recon-side world: count of `exec_command` calls made so far and the
trace of dispatched commands in declaration order. -/
structure RWorld where
  k : Nat
  trace : List String
  deriving Repr, DecidableEq

/-- Boundary model of `mcp.exec_client.exec_command` as `run_recon` uses it:
return output or raise, recording the dispatched command. -/
def execCommand (env : ReconEnv) (cmd : String) (w : RWorld) :
    Except String String × RWorld :=
  (env w.k, { k := w.k + 1, trace := w.trace ++ [cmd] })

/-- Host extraction of `run_lightweight_recon`:
`url.replace('https://','').replace('http://','').split('/')[0]`. -/
def stripHost (url : String) : String :=
  ((pySplit (pyReplace (pyReplace url "https://" "") "http://" "") "/").headD "")

/-- Combined dig/whois command of `run_lightweight_recon`, flattened. -/
def lightweightInfoCmd (url : String) : String :=
  "echo \"DNS Lookup:\" && dig +short " ++ stripHost url ++
    " 2>&1 | head -5 && echo \"\" && echo \"WHOIS Info:\" && whois " ++ stripHost url ++
    " 2>&1 | head -20"

/-- Header text of the lightweight recon report. -/
def lightweightHeader (url : String) : String :=
  "\nLightweight Reconnaissance\n==========================\nTarget: " ++ url ++
    "\nStatus: Target is not responding or is not a live web application\n\nBasic Information:\n"

/-- Footer text of the lightweight recon report. -/
def lightweightFooter : String :=
  "\n\nNote: Target appears to be offline or is not a web application.\nFor accurate penetration testing:\n- Ensure the target is a live, running web application\n- If testing a local app, use http://localhost:PORT\n- If testing DVWA, deploy it first: docker-compose up -d\n"

/-- Model of `run_lightweight_recon`: one dig/whois dispatch whose failure is
caught and reported inline. -/
def runLightweightRecon (env : ReconEnv) (url : String) (w : RWorld) :
    String × RWorld :=
  let p := execCommand env (lightweightInfoCmd url) w
  match p.1 with
  | .ok s => (lightweightHeader url ++ s ++ lightweightFooter, p.2)
  | .error e =>
      (lightweightHeader url ++ ("Basic recon failed: " ++ e) ++ lightweightFooter, p.2)

/-- Clone command of `run_github_recon`, flattened. -/
def cloneCmd (owner repo : String) : String :=
  "cd /tmp && rm -rf " ++ repo ++ " 2>/dev/null && git clone https://github.com/" ++
    owner ++ "/" ++ repo ++ ".git --depth 1 2>&1 && echo \"✅ Repository cloned successfully\""

/-- Docker-detection command of `run_github_recon`, flattened. -/
def dockerCheckCmd (repo : String) : String :=
  "cd /tmp/" ++ repo ++
    " && if [ -f \"docker-compose.yml\" ]; then echo \"🐳 Docker Compose detected\"; cat docker-compose.yml | grep -E \"ports:|image:\" | head -10; elif [ -f \"Dockerfile\" ]; then echo \"🐳 Dockerfile detected\"; cat Dockerfile | head -10; else echo \"ℹ️  No Docker configuration found\"; fi"

/-- Port-detection command of `run_github_recon`, flattened. -/
def portDetectCmd (repo : String) : String :=
  "cd /tmp/" ++ repo ++
    " && if [ -f \"docker-compose.yml\" ]; then grep -oP '\\d+:' docker-compose.yml | head -1 | tr -d ':'; else echo \"8080\"; fi"

/-- Code-analysis command of `run_github_recon`, flattened. -/
def analysisCmd (repo : String) : String :=
  "cd /tmp/" ++ repo ++
    " && echo \"📂 Repository structure:\" && find . -maxdepth 2 -type f -name \"*.php\" -o -name \"*.js\" -o -name \"*.py\" | head -15 && echo \"\" && echo \"🔍 Searching for vulnerability patterns...\" && echo \"\" && echo \"💉 SQL Injection patterns:\" && grep -r \"mysql_query\\|mysqli_query\\|\\$_GET\\|\\$_POST\" --include=\"*.php\" 2>/dev/null | head -5 || echo \"   None detected\" && echo \"\" && echo \"⚡ XSS patterns:\" && grep -r \"echo.*\\$_\" --include=\"*.php\" 2>/dev/null | head -5 || echo \"   None detected\""

/-- Effective behaviour of `re.search(r'github\.com/([^/]+)/([^/?]+)', url)`
followed by `repo.split('?')[0]`: the owner segment and the repo segment (cut
at `?`) after the first occurrence of "github.com/", both required non-empty.
(The regex engine's rescan from later occurrences when the first cannot
complete a match is not reproduced; no claim depends on it.) -/
def extractOwnerRepo (url : String) : Option (String × String) :=
  match pySplit url "github.com/" with
  | [] => none
  | [_] => none
  | _ :: r1 :: rs =>
      let after := String.intercalate "github.com/" (r1 :: rs)
      match pySplit after "/" with
      | owner :: next :: _ =>
          if owner = "" then none
          else
            let repo := (pySplit next "?").headD ""
            if repo = "" then none else some (owner, repo)
      | _ => none

/-- Dispatch-trace model of `run_github_recon`: clone, docker check, port
detection (its own `try`, failures defaulted to "8080"), code analysis, all
inside one `try` whose handler stops dispatching and reports the failure. The
long narrative banners interleaved into `recon_output` are elided — no claim
inspects this path's report text — while the dispatch structure and the
exception control flow mirror the code. -/
def runGithubRecon (env : ReconEnv) (url : String) (w : RWorld) :
    String × RWorld :=
  match extractOwnerRepo url with
  | none => ("Invalid GitHub URL: " ++ url, w)
  | some (owner, repo) =>
      let p1 := execCommand env (cloneCmd owner repo) w
      match p1.1 with
      | .error e => ("DEPLOYMENT FAILED: " ++ e, p1.2)
      | .ok out1 =>
          let p2 := execCommand env (dockerCheckCmd repo) p1.2
          match p2.1 with
          | .error e => (out1 ++ "\nDEPLOYMENT FAILED: " ++ e, p2.2)
          | .ok out2 =>
              let p3 := execCommand env (portDetectCmd repo) p2.2
              let port := match p3.1 with
                | .ok s => if pyStrip s = "" then "8080" else pyStrip s
                | .error _ => "8080"
              let p4 := execCommand env (analysisCmd repo) p3.2
              match p4.1 with
              | .error e => (out1 ++ out2 ++ "\nDEPLOYMENT FAILED: " ++ e, p4.2)
              | .ok out4 => (out1 ++ out2 ++ port ++ out4, p4.2)

/-- The `nmap` task of the full batch. -/
def nmapCmd (ip : String) : String := "nmap -Pn -T4 -p 80,443,8080,8443 " ++ ip

/-- The `curl -I` task of the full batch. -/
def curlHeadCmd (url : String) : String := "curl -I " ++ url

/-- The `whatweb` task of the full batch. -/
def whatwebCmd (url : String) : String :=
  "whatweb " ++ url ++ " || echo 'whatweb not available'"

/-- Declared full-recon batch, in declaration order: `nmap` only when a
usable IP is given (`target_ip` truthy and not an URL), then the two web
probes. -/
def fullCmds (targetIp targetUrl : String) : List String :=
  (if targetIp ≠ "" ∧ pyStartsWith targetIp "http" = false then [nmapCmd targetIp] else []) ++
    [curlHeadCmd targetUrl, whatwebCmd targetUrl]

/-- Model of `asyncio.gather(*tasks, return_exceptions=True)` over the
declared command list: per-task outcomes collected in declaration order,
exceptions appearing as values, no task cancelling its siblings (each slot
depends only on its own environment entry). -/
def gatherExec (env : ReconEnv) (cmds : List String) (w : RWorld) :
    List (Except String String) × RWorld :=
  match cmds with
  | [] => ([], w)
  | c :: cs =>
      let p := execCommand env c w
      let q := gatherExec env cs p.2
      (p.1 :: q.1, q.2)

/-- Aggregation of `run_recon`: keep the results that are strings
(`isinstance(r, str)`), join with blank lines, or fall back to the fixed
message when none succeeded. -/
def aggregateResults (results : List (Except String String)) : String :=
  let valid := results.filterMap fun r =>
    match r with
    | .ok s => some s
    | .error _ => none
  if valid.isEmpty then "No reconnaissance data collected"
  else String.intercalate "\n\n" valid

/-- Model of `run_recon`: GitHub targets take the code-analysis path; any
other target is probed with the short-timeout HTTP check; an unreachable or
unresponsive target gets the lightweight batch; a responsive one gets the
full batch, gathered concurrently and aggregated in declaration order. The
`except` around the gather is unreachable (the gather returns exceptions as
values) and therefore not represented. -/
def runRecon (env : ReconEnv) (targetIp targetUrl : String) (w : RWorld) :
    String × RWorld :=
  if pyContains targetUrl "github.com" then runGithubRecon env targetUrl w
  else
    let p := execCommand env (probeCmd targetUrl) w
    match p.1 with
    | .error _ => runLightweightRecon env targetUrl p.2
    | .ok httpCode =>
        if unresponsive httpCode then runLightweightRecon env targetUrl p.2
        else
          let q := gatherExec env (fullCmds targetIp targetUrl) p.2
          (aggregateResults q.1, q.2)

/-- Spec-side reading of the aggregation contract: walk the outcomes in the
order the commands were declared and keep the successful outputs; failed
commands contribute nothing. -/
def specSuccessOutputs : List (Except String String) → List String
  | [] => []
  | .ok s :: rs => s :: specSuccessOutputs rs
  | .error _ :: rs => specSuccessOutputs rs

/-- Outcomes the environment assigns to `n` consecutive calls starting at
index `k`. -/
def envOutcomes (env : ReconEnv) (k n : Nat) : List (Except String String) :=
  (List.range n).map fun j => env (k + j)

theorem envOutcomes_succ (env : ReconEnv) (k n : Nat) :
    envOutcomes env k (n + 1) = env k :: envOutcomes env (k + 1) n := by
  unfold envOutcomes
  rw [List.range_succ_eq_map, List.map_cons, List.map_map]
  have h : ((fun j => env (k + j)) ∘ Nat.succ) = fun j => env (k + 1 + j) := by
    funext j
    have hj : k + Nat.succ j = k + 1 + j := by omega
    simp [Function.comp, hj]
  rw [h, Nat.add_zero]

/-- The gather collects, in declaration order, exactly the outcome the
environment assigns to each task's own slot, and dispatches exactly the
declared commands: no task's outcome depends on a sibling's. -/
theorem gatherExec_spec (env : ReconEnv) (cmds : List String) (w : RWorld) :
    gatherExec env cmds w =
      (envOutcomes env w.k cmds.length,
        { k := w.k + cmds.length, trace := w.trace ++ cmds }) := by
  induction cmds generalizing w with
  | nil => simp [gatherExec, envOutcomes]
  | cons c cs ih =>
      simp only [gatherExec, execCommand]
      rw [ih]
      rw [show (c :: cs).length = cs.length + 1 from rfl, envOutcomes_succ]
      simp [Nat.add_assoc, Nat.add_comm 1 cs.length]

/-- The aggregation's `isinstance(r, str)` filter computes exactly the
spec-side walk that keeps successful outputs in declaration order. -/
theorem filterMap_ok_eq_specSuccessOutputs (rs : List (Except String String)) :
    (rs.filterMap fun r =>
      match r with
      | .ok s => some s
      | .error _ => none) = specSuccessOutputs rs := by
  induction rs with
  | nil => rfl
  | cons r rs ih => cases r <;> simp [specSuccessOutputs, ih]

/-- The lightweight path dispatches exactly the one dig/whois command. -/
theorem runLightweightRecon_trace (env : ReconEnv) (url : String) (w : RWorld) :
    ((runLightweightRecon env url w).2).trace = w.trace ++ [lightweightInfoCmd url] := by
  unfold runLightweightRecon execCommand
  cases env w.k <;> rfl

/-- C7: on a responsive non-GitHub target, `run_recon` completes and returns
the concatenation (blank-line separated) of exactly the successful task
outputs, in the order the commands were declared; each task's slot is its own
environment outcome, so a failing task neither cancels siblings nor
contributes to the report, and when everything failed the fixed fallback text
is returned. -/
theorem c7_partial_failure_aggregation (env : ReconEnv) (ip url : String)
    (w : RWorld) (code : String)
    (hgit : pyContains url "github.com" = false)
    (hprobe : env w.k = .ok code) (hresp : unresponsive code = false) :
    (runRecon env ip url w).1 =
      (if specSuccessOutputs (envOutcomes env (w.k + 1) (fullCmds ip url).length) = []
       then "No reconnaissance data collected"
       else String.intercalate "\n\n"
         (specSuccessOutputs (envOutcomes env (w.k + 1) (fullCmds ip url).length))) := by
  unfold runRecon
  simp only [hgit, Bool.false_eq_true, if_false, execCommand]
  rw [hprobe]
  simp only [hresp, Bool.false_eq_true, if_false]
  rw [gatherExec_spec]
  unfold aggregateResults
  rw [filterMap_ok_eq_specSuccessOutputs]
  by_cases h : specSuccessOutputs
      (envOutcomes env (w.k + 1) (fullCmds ip url).length) = [] <;>
    simp [h, List.isEmpty_iff]

/-- Closed witness for `c7_partial_failure_aggregation`: a batch of three
declared commands (nmap, curl, whatweb) where the first and third raise
transient infrastructure errors that exhaust their (non-existent) retries
still produces a report carrying exactly the successful output. -/
theorem c7_partial_failure_aggregation_witness :
    (runRecon
        (fun j =>
          if j = 0 then .ok "200"
          else if j = 1 then .error "rate limit exceeded"
          else if j = 2 then .ok "HTTP/1.1 200 OK"
          else .error "connection reset by peer")
        "1.2.3.4" "http://testphp.vulnweb.com" { k := 0, trace := [] }).1 =
      (if specSuccessOutputs
            (envOutcomes
              (fun j =>
                if j = 0 then .ok "200"
                else if j = 1 then .error "rate limit exceeded"
                else if j = 2 then .ok "HTTP/1.1 200 OK"
                else .error "connection reset by peer")
              (0 + 1) (fullCmds "1.2.3.4" "http://testphp.vulnweb.com").length) = []
       then "No reconnaissance data collected"
       else String.intercalate "\n\n"
         (specSuccessOutputs
            (envOutcomes
              (fun j =>
                if j = 0 then .ok "200"
                else if j = 1 then .error "rate limit exceeded"
                else if j = 2 then .ok "HTTP/1.1 200 OK"
                else .error "connection reset by peer")
              (0 + 1) (fullCmds "1.2.3.4" "http://testphp.vulnweb.com").length))) :=
  c7_partial_failure_aggregation
    (fun j =>
      if j = 0 then .ok "200"
      else if j = 1 then .error "rate limit exceeded"
      else if j = 2 then .ok "HTTP/1.1 200 OK"
      else .error "connection reset by peer")
    "1.2.3.4" "http://testphp.vulnweb.com" { k := 0, trace := [] } "200"
    (by decide) (by rfl) (by decide)

/-- C8 as amended, for non-GitHub targets: `run_recon` probes first, and the
probe decides the batch — an unreachable (probe raised) or unresponsive
("000"/blank status) target gets exactly the probe plus the single
DNS/registration command and nothing else (in particular no network or
application scanner), while a responsive target gets the probe followed by
the full declared batch. -/
theorem c8_amended_probe_selects_batch (env : ReconEnv) (ip url : String)
    (w : RWorld) (hgit : pyContains url "github.com" = false) :
    (∀ e, env w.k = .error e →
      ((runRecon env ip url w).2).trace =
        w.trace ++ [probeCmd url, lightweightInfoCmd url]) ∧
    (∀ code, env w.k = .ok code → unresponsive code = true →
      ((runRecon env ip url w).2).trace =
        w.trace ++ [probeCmd url, lightweightInfoCmd url]) ∧
    (∀ code, env w.k = .ok code → unresponsive code = false →
      ((runRecon env ip url w).2).trace =
        w.trace ++ probeCmd url :: fullCmds ip url) ∧
    (((runRecon env ip url w).2).trace.drop w.trace.length).head? =
      some (probeCmd url) := by
  have h1 : ∀ e, env w.k = .error e →
      ((runRecon env ip url w).2).trace =
        w.trace ++ [probeCmd url, lightweightInfoCmd url] := by
    intro e hp
    unfold runRecon
    simp only [hgit, Bool.false_eq_true, if_false, execCommand]
    rw [hp]
    rw [runLightweightRecon_trace]
    simp
  have h2 : ∀ code, env w.k = .ok code → unresponsive code = true →
      ((runRecon env ip url w).2).trace =
        w.trace ++ [probeCmd url, lightweightInfoCmd url] := by
    intro code hp hu
    unfold runRecon
    simp only [hgit, Bool.false_eq_true, if_false, execCommand]
    rw [hp]
    simp only [hu, if_true]
    rw [runLightweightRecon_trace]
    simp
  have h3 : ∀ code, env w.k = .ok code → unresponsive code = false →
      ((runRecon env ip url w).2).trace =
        w.trace ++ probeCmd url :: fullCmds ip url := by
    intro code hp hu
    unfold runRecon
    simp only [hgit, Bool.false_eq_true, if_false, execCommand]
    rw [hp]
    simp only [hu, Bool.false_eq_true, if_false]
    rw [gatherExec_spec]
    simp
  refine ⟨h1, h2, h3, ?_⟩
  rcases hp : env w.k with e | code
  · rw [h1 e hp, List.drop_left]
    rfl
  · by_cases hu : unresponsive code
    · rw [h2 code hp hu, List.drop_left]
      rfl
    · rw [h3 code hp (by simpa using hu), List.drop_left]
      rfl

/-- Closed witness for `c8_amended_probe_selects_batch` at a concrete
unresponsive target: status "000" selects the lightweight batch. -/
theorem c8_amended_probe_selects_batch_witness :
    ((runRecon (fun _ => .ok "000") "1.2.3.4" "http://10.9.9.9:8080"
        { k := 0, trace := [] }).2).trace =
      [] ++ [probeCmd "http://10.9.9.9:8080", lightweightInfoCmd "http://10.9.9.9:8080"] :=
  (c8_amended_probe_selects_batch (fun _ => .ok "000") "1.2.3.4" "http://10.9.9.9:8080"
      { k := 0, trace := [] } (by decide)).2.1 "000" (by rfl) (by decide)

set_option maxRecDepth 8192 in
/-- C8 counterexample to "for every target, `run` first performs a
reachability probe": a GitHub repository target is never probed — the first
dispatched command is the repository clone, and the probe command appears
nowhere in the dispatch trace. -/
theorem c8_counterexample_github_skips_probe :
    ((runRecon (fun _ => .ok "") "1.2.3.4" "https://github.com/a/b"
        { k := 0, trace := [] }).2).trace.head? = some (cloneCmd "a" "b") ∧
    cloneCmd "a" "b" ≠ probeCmd "https://github.com/a/b" ∧
    probeCmd "https://github.com/a/b" ∉
      ((runRecon (fun _ => .ok "") "1.2.3.4" "https://github.com/a/b"
          { k := 0, trace := [] }).2).trace := by
  refine ⟨by rfl, by decide, by decide⟩

/-- Program counter of one task running `get_or_create_sandbox` under
asyncio's cooperative scheduling. The synchronous prefix — the recreation
checks and `close_sandbox`, whose body contains no true suspension — is one
atomic step; the `await AsyncSandbox.create(...)` network suspension and the
provisioning suspension are the interleaving points; on completion the task
returns `self.sandbox` as it stands at that moment. -/
inductive LeasePc where
  | start
  | creating
  | installing
  | done (ret : Option Nat)
  deriving Repr, DecidableEq

/-- Two concurrent `lease()` callers (tasks A and B) sharing one manager
state, with a count of completed sandbox creations. -/
structure LeaseSys where
  st : SbxState
  creations : Nat
  taskA : LeasePc
  taskB : LeasePc
  deriving Repr, DecidableEq

/-- One step of one task. Creation is taken to succeed, and provisioning is a
single suspension (it never touches the handle fields, see
`installSecurityTools_st`, so its internal dispatches are irrelevant here);
coarsening the interleaving points can only remove schedules, so any bad
schedule exhibited in this model exists in the code. -/
def leaseStep (now : Nat) (st : SbxState) (creations : Nat) :
    LeasePc → SbxState × Nat × LeasePc
  | .start =>
      if shouldRecreate now st then (closeSt st, creations, .creating)
      else (st, creations, .done st.sandbox)
  | .creating =>
      ({ sandbox := some st.nextId, createdAt := some now, commandCount := 0,
         nextId := st.nextId + 1 }, creations + 1, .installing)
  | .installing => (st, creations, .done st.sandbox)
  | .done r => (st, creations, .done r)

/-- Run a schedule: `true` steps task A, `false` steps task B. -/
def leaseRun (now : Nat) : List Bool → LeaseSys → LeaseSys
  | [], sys => sys
  | true :: sch, sys =>
      let s := leaseStep now sys.st sys.creations sys.taskA
      leaseRun now sch { st := s.1, creations := s.2.1, taskA := s.2.2, taskB := sys.taskB }
  | false :: sch, sys =>
      let s := leaseStep now sys.st sys.creations sys.taskB
      leaseRun now sch { st := s.1, creations := s.2.1, taskA := sys.taskA, taskB := s.2.2 }

/-- Initial system: no sandbox exists, both tasks are entering `lease()`. -/
def leaseInit : LeaseSys :=
  { st := { sandbox := none, createdAt := none, commandCount := 0, nextId := 0 },
    creations := 0, taskA := .start, taskB := .start }

/-- C1 fails on the code: `get_or_create_sandbox` has no lock or single-flight
guard, so under the interleaving in which both tasks evaluate the recreation
check before either `AsyncSandbox.create` completes (schedule A,B,A,B,A,B),
two sandboxes are created — the claim demands exactly one — and the first
handle is orphaned; both callers return the second handle. Run sequentially
(schedule A,A,A,B,B,B) the same two callers create exactly one sandbox, so
the duplication is caused by the unguarded interleaving alone. -/
theorem c1_concurrent_lease_double_creation :
    (leaseRun 5 [true, false, true, false, true, false] leaseInit).creations = 2 ∧
    (leaseRun 5 [true, false, true, false, true, false] leaseInit).taskA = .done (some 1) ∧
    (leaseRun 5 [true, false, true, false, true, false] leaseInit).taskB = .done (some 1) ∧
    (leaseRun 5 [true, true, true, false, false, false] leaseInit).creations = 1 ∧
    (leaseRun 5 [true, true, true, false, false, false] leaseInit).taskA = .done (some 0) ∧
    (leaseRun 5 [true, true, true, false, false, false] leaseInit).taskB = .done (some 0) := by
  decide

end AutoCTF
